import Mathlib

/-!
Verification of the simulation-and-control core of the TAP_GAME repository
(src/main.py, a Kivy flappy-bird clone with a predictive autopilot).

The Python source is shallowly embedded over the rationals: Python floats
become `ℚ` (at every concrete value used by the claims the float computations
are exact, e.g. `int(400*0.12) = 48`, `int(400*1.3) = 520`), Python ints
become `ℤ`/`ℕ`, and `random.randint(a, b)` becomes a seed-indexed oracle
`randint a b r = a + r % (b - a + 1)` ranging over exactly `[a, b]`.
Widget/rendering/sound side effects carry no game-logic state and are
dropped; everything else follows the source line by line.
-/

namespace TapGame

/-- GRAVITY = -480.0 (src/main.py line 58). -/
def GRAVITY : ℚ := -480

/-- FLAP_VELOCITY = 380.0 (line 59). -/
def FLAP_VELOCITY : ℚ := 380

/-- MIN_FLAP_INTERVAL = 0.18 (line 63). -/
def MIN_FLAP_INTERVAL : ℚ := 18/100

/-- PIPE_MIN_GAP_Y = 60 (line 64). -/
def PIPE_MIN_GAP_Y : ℤ := 60

/-- WINDOW_WIDTH = 400 (line 52). -/
def WINDOW_WIDTH : ℚ := 400

/-- WINDOW_HEIGHT = 600 (line 53). -/
def WINDOW_HEIGHT : ℚ := 600

/-- Bird width, from BIRD_SIZE = (64, 64) (line 60). -/
def birdW : ℚ := 64

/-- Bird height, from BIRD_SIZE = (64, 64) (line 60). -/
def birdH : ℚ := 64

/-- The bird's x position: set to 100 at construction (line 278) and at
start_game (line 461), never moved horizontally. -/
def birdX : ℚ := 100

/-- Pipe width passed at both construction sites: int(WINDOW_WIDTH * 0.12),
which the Python float arithmetic evaluates to exactly 48 (lines 470, 549). -/
def PIPE_WIDTH : ℚ := 48

/-- Model of random.randint a b with seed r: some value in [a, b]
(every value in the range is hit by some seed). -/
def randint (a b : ℤ) (r : ℕ) : ℤ := a + (r : ℤ) % (b - a + 1)

/-- One PipePair widget (class PipePair, lines 227-256): leading edge x,
gap bottom `gap_y`, gap height `gap_size`, pipe width, and the `scored`
flag.  screen_height is always WINDOW_HEIGHT at both construction sites. -/
structure PipePair where
  x : ℚ
  gapY : ℚ
  gapSize : ℚ
  widthPipe : ℚ
  scored : Bool
deriving DecidableEq, Repr

/-- bottom_height = gap_y (line 236). -/
def PipePair.bottomHeight (p : PipePair) : ℚ := p.gapY

/-- top_pos = gap_y + gap_size (line 237). -/
def PipePair.topPos (p : PipePair) : ℚ := p.gapY + p.gapSize

/-- top_height = screen_height - top_pos (line 238). -/
def PipePair.topHeight (p : PipePair) : ℚ := WINDOW_HEIGHT - p.topPos

/-- right = x + width_pipe (line 246). -/
def PipePair.right (p : PipePair) : ℚ := p.x + p.widthPipe

/-- The inner aabb test of PipePair.collides_with (line 255):
x1 < x2 + w2 and x1 + w1 > x2 and y1 < y2 + h2 and y1 + h1 > y2. -/
def aabb (x1 y1 w1 h1 x2 y2 w2 h2 : ℚ) : Bool :=
  decide (x1 < x2 + w2) && decide (x1 + w1 > x2) &&
  decide (y1 < y2 + h2) && decide (y1 + h1 > y2)

/-- PipePair.collides_with (lines 252-256): aabb of the bird box against
the bottom rectangle (x, 0, width, bottom_height) or the top rectangle
(x, top_pos, width, top_height). -/
def PipePair.collidesWith (p : PipePair) (bx b_y bw bh : ℚ) : Bool :=
  aabb bx b_y bw bh p.x 0 p.widthPipe p.bottomHeight ||
  aabb bx b_y bw bh p.x p.topPos p.widthPipe p.topHeight

/-- Positive-overlap-area test for two axis-aligned rectangles: the
intersection extent is positive on both axes. -/
def rectOverlapPos (x1 y1 w1 h1 x2 y2 w2 h2 : ℚ) : Prop :=
  max x1 x2 < min (x1 + w1) (x2 + w2) ∧ max y1 y2 < min (y1 + h1) (y2 + h2)

/-- p.move dx (lines 247-251): translate x by dx (graphics dropped). -/
def movePipe (dx : ℚ) (p : PipePair) : PipePair := { p with x := p.x + dx }

/-- The difficulty parameters stored in the four current_* fields.
current_pipe_gap is a Python int (300, or int(...) in the hard branch). -/
structure DifficultyParams where
  speed : ℚ
  gap : ℤ
  spawnInterval : ℚ
  spacingMult : ℚ
deriving DecidableEq, Repr

/-- FlappyGame._apply_difficulty (lines 503-515) as a pure function of the
score.  EASY = (80, 300, 4.0, 1.3), HARD = (180, 200, 2.0, 1.05),
RAMP_MAX_ADDITIONAL_SPEED = 80, RAMP_MAX_GAP_REDUCTION = 50; `int` on the
gap is truncation of a positive value, i.e. floor. -/
def applyDifficulty (score : ℕ) : DifficultyParams :=
  if score < 30 then
    ⟨80, 300, 4, 13/10⟩
  else
    let extra : ℚ := max 0 ((score : ℚ) - 30)
    let ramp : ℚ := min 1 (extra / 50)
    ⟨180 + 80 * ramp, ⌊max 60 (200 - 50 * ramp)⌋,
      max (9/10) (2 - (8/10) * ramp), 21/20⟩

/-- clamp of the spec text: clamp(x, lo, hi). -/
def clamp (x lo hi : ℚ) : ℚ := max lo (min hi x)

/-- Modelled from the spec: the difficulty tuple
(speed, gap, spawn_interval, spacing_mult) exactly as the claim words it —
easy tuple below score 30, otherwise ramp = clamp((score-30)/50, 0, 1),
speed = 180 + 80*ramp, gap = max(60, 200 - 50*ramp),
spawn_interval = max(0.9, 2.0 - 0.8*ramp), spacing_mult = 1.05.
Used only to compare against `applyDifficulty` (refinement). -/
def difficultySpec (score : ℕ) : ℚ × ℚ × ℚ × ℚ :=
  if score < 30 then (80, 300, 4, 13/10)
  else
    let ramp : ℚ := clamp (((score : ℚ) - 30) / 50) 0 1
    (180 + 80 * ramp, max 60 (200 - 50 * ramp),
      max (9/10) (2 - (8/10) * ramp), 21/20)

/-- The game-logic state of FlappyGame: bird y/velocity, pipe list, score,
the two phase flags, spawn accumulator, the four current_* difficulty
fields, the autoplay flag and the debounce timestamp. -/
structure Game where
  birdY : ℚ
  birdV : ℚ
  pipes : List PipePair
  score : ℕ
  gameOver : Bool
  running : Bool
  timeSinceLastSpawn : ℚ
  currentPipeSpeed : ℚ
  currentPipeGap : ℤ
  currentSpawnInterval : ℚ
  initialSpacingMult : ℚ
  autoplay : Bool
  lastFlapTime : ℚ
deriving DecidableEq, Repr

/-- FlappyGame.end_game (lines 487-501): set game_over, stop running
(labels, buttons and Clock bookkeeping dropped). -/
def endGame (s : Game) : Game := { s with gameOver := true, running := false }

/-- FlappyGame._flap at wall-clock time `now` (lines 340-349 + line 223):
_can_flap_now accepts iff now - _last_flap_time >= MIN_FLAP_INTERVAL, and
on acceptance records `now` and Bird.flap sets velocity = FLAP_VELOCITY;
otherwise the call is a no-op (sound playing dropped). -/
def flapAction (s : Game) (now : ℚ) : Game :=
  if MIN_FLAP_INTERVAL ≤ now - s.lastFlapTime then
    { s with birdV := FLAP_VELOCITY, lastFlapTime := now }
  else s

/-- Bird.physics_step (lines 220-222): velocity += GRAVITY*dt, then
y += velocity*dt (with the already-updated velocity). -/
def birdStep (y v dt : ℚ) : ℚ × ℚ :=
  let v1 := v + GRAVITY * dt
  (y + v1 * dt, v1)

/-- The flap-event times built by _predict_center_with_flaps
(lines 372-378): i * MIN_FLAP_INTERVAL for i < n_flaps, keeping only
times strictly below time_to_pipe.  (The subsequent `events.sort` is the
identity: these times are strictly increasing and the final event sits at
time_to_pipe, at or after all of them.) -/
def flapTimes (n : ℕ) (T : ℚ) : List ℚ :=
  ((List.range n).map (fun i => (i : ℚ) * MIN_FLAP_INTERVAL)).filter
    (fun t => decide (t < T))

/-- The event loop of _predict_center_with_flaps over the flap events
(lines 382-393): from (y, v, t_prev), integrate closed-form to the event
time, then overwrite the velocity with FLAP_VELOCITY. -/
def simFlaps : ℚ → ℚ → ℚ → List ℚ → ℚ × ℚ × ℚ
  | y, v, tprev, [] => (y, v, tprev)
  | y, v, tprev, t :: ts =>
    let dt := t - tprev
    let y1 := y + v * dt + (1/2) * GRAVITY * dt ^ 2
    simFlaps y1 FLAP_VELOCITY t ts

/-- FlappyGame._predict_center_with_flaps (lines 363-395) as a function of
the bird state: process the flap events, integrate to time_to_pipe (the
'end' event applies no impulse), and return y + bird.height/2. -/
def predictCenterWithFlaps (y v T : ℚ) (n : ℕ) : ℚ :=
  let r := simFlaps y v 0 (flapTimes n T)
  let dt := T - r.2.2
  (r.1 + r.2.1 * dt + (1/2) * GRAVITY * dt ^ 2) + birdH / 2

/-- The margin test of _autoflap_logic line 424:
gap_center - gap_size/2 + margin <= c <= gap_center + gap_size/2 - margin. -/
def insideGap (gapCenter gapSize margin c : ℚ) : Bool :=
  decide (gapCenter - gapSize / 2 + margin ≤ c) &&
  decide (c ≤ gapCenter + gapSize / 2 - margin)

/-- The fallback of _autoflap_logic lines 429-439: best_dist starts at
infinity so k = 0 is always taken first, then k = 1, 2, 3 replace it only
on strictly smaller distance. -/
def fallbackBest (f : ℕ → ℚ) : ℕ :=
  [1, 2, 3].foldl (fun b k => if f k < f b then k else b) 0

/-- The flap-count choice of _autoflap_logic (lines 417-439): the least
k in 0..3 whose predicted center passes the margin test, else the
fallback minimizing |predicted center - gap_center|. -/
def chosenFlaps (y v gapCenter gapSize T : ℚ) : ℕ :=
  match (List.range 4).find?
      (fun k => insideGap gapCenter gapSize 6 (predictCenterWithFlaps y v T k)) with
  | some k => k
  | none => fallbackBest (fun k => |predictCenterWithFlaps y v T k - gapCenter|)

/-- Next-pipe selection of _autoflap_logic (lines 403-407): the first pipe
whose right edge is strictly ahead of the bird's x. -/
def nextPipe (pipes : List PipePair) : Option PipePair :=
  pipes.find? (fun p => decide (p.x + p.widthPipe > birdX))

/-- FlappyGame._autoflap_logic (lines 397-449): guards, next-pipe choice,
the current_pipe_speed <= 0 no-op, the flap-count search, and a single
debounced _flap when the chosen count is >= 1. -/
def autoflapLogic (s : Game) (now : ℚ) : Game :=
  if s.pipes.isEmpty || !s.running || s.gameOver then s
  else
    match nextPipe s.pipes with
    | none => s
    | some p =>
      if s.currentPipeSpeed ≤ 0 then s
      else
        let gapCenter := p.gapY + p.gapSize / 2
        let T := (p.x - birdX) / s.currentPipeSpeed
        let chosen := chosenFlaps s.birdY s.birdV gapCenter p.gapSize T
        if 1 ≤ chosen then flapAction s now else s

/-- Pipe advancement and culling of _update (lines 533-542): move every
pipe by dx, then drop those whose right edge is below -50. -/
def moveAndCull (pipes : List PipePair) (dx : ℚ) : List PipePair :=
  (pipes.map (movePipe dx)).filter (fun p => !decide (p.right < -50))

/-- rightmost = max([p.x for p in pipes]) if pipes else 0 (line 546). -/
def rightmostX : List PipePair → ℚ
  | [] => 0
  | p :: ps => ps.foldl (fun m q => max m q.x) p.x

/-- The spawn step of _update (lines 545-552), taking the accumulator
value after the += dt of line 544: when it has reached the interval,
append one pipe at max(WINDOW_WIDTH + 20, rightmost + int(WINDOW_WIDTH*0.7))
(int(400*0.7) = 280) with gap_y = randint(PIPE_MIN_GAP_Y + 10,
WINDOW_HEIGHT - gap - 30) and reset the accumulator to 0. -/
def spawnPhase (pipes : List PipePair) (accum interval : ℚ) (gap : ℤ)
    (rng : ℕ) : List PipePair × ℚ :=
  if interval ≤ accum then
    let spawnX := max (WINDOW_WIDTH + 20) (rightmostX pipes + 280)
    let gapY := randint (PIPE_MIN_GAP_Y + 10) (600 - gap - 30) rng
    (pipes ++ [⟨spawnX, (gapY : ℚ), (gap : ℚ), PIPE_WIDTH, false⟩], 0)
  else (pipes, accum)

/-- The final loop of _update (lines 558-566): for each pipe in order,
first the collision test (which ends the run at once, leaving the rest of
the list untouched), then the scored-flag-gated score increment when
p.right < bird.x.  Returns (pipes, score, ended). -/
def collideScoreLoop (b_y : ℚ) : List PipePair → ℕ → List PipePair × ℕ × Bool
  | [], score => ([], score, false)
  | p :: rest, score =>
    if p.collidesWith birdX b_y birdW birdH then (p :: rest, score, true)
    else if (!p.scored) && decide (p.right < birdX) then
      let r := collideScoreLoop b_y rest (score + 1)
      ({ p with scored := true } :: r.1, r.2.1, r.2.2)
    else
      let r := collideScoreLoop b_y rest score
      (p :: r.1, r.2.1, r.2.2)

/-- FlappyGame._update (lines 517-566) for one tick of dt, with `now` the
wall-clock time seen by the debounce and `rng` the randint seed:
running/game_over guard; _apply_difficulty; bird physics; floor and
ceiling checks (clamp + end_game + return); pipe movement and culling;
spawn accumulation; the autoplay bot; then the collision-and-scoring
loop, ending the game if a collision was found. -/
def gameUpdate (s : Game) (dt now : ℚ) (rng : ℕ) : Game :=
  if !s.running || s.gameOver then s
  else
    let d := applyDifficulty s.score
    let b := birdStep s.birdY s.birdV dt
    let s1 := { s with
      currentPipeSpeed := d.speed, currentPipeGap := d.gap
      currentSpawnInterval := d.spawnInterval
      initialSpacingMult := d.spacingMult
      birdY := b.1, birdV := b.2 }
    if s1.birdY ≤ 0 then endGame { s1 with birdY := 0 }
    else if WINDOW_HEIGHT ≤ s1.birdY + birdH then
      endGame { s1 with birdY := WINDOW_HEIGHT - birdH }
    else
      let moved := moveAndCull s1.pipes (-(s1.currentPipeSpeed) * dt)
      let sp := spawnPhase moved (s1.timeSinceLastSpawn + dt)
        s1.currentSpawnInterval s1.currentPipeGap rng
      let s2 := { s1 with pipes := sp.1, timeSinceLastSpawn := sp.2 }
      let s3 := if s2.autoplay then autoflapLogic s2 now else s2
      let r := collideScoreLoop s3.birdY s3.pipes s3.score
      let s4 := { s3 with pipes := r.1, score := r.2.1 }
      if r.2.2 then endGame s4 else s4

/-- FlappyGame.start_game (lines 454-477) with seeds r1, r2 for the two
randint draws: clear pipes, reset score, flags, spawn accumulator and
bird launch state (pos (100, 600//2 - 64//2) = (100, 268), velocity 0),
then pre-spawn two pipes at WINDOW_WIDTH + i*spacing for i = 0, 1 with
spacing = int(WINDOW_WIDTH * initial_spacing_mult) and
gap_y = randint(PIPE_MIN_GAP_Y + 20, WINDOW_HEIGHT - current_pipe_gap - 40).
Note: the current_* difficulty fields are left as they are. -/
def startGame (s : Game) (r1 r2 : ℕ) : Game :=
  let spacing : ℚ := ((⌊WINDOW_WIDTH * s.initialSpacingMult⌋ : ℤ) : ℚ)
  let lo : ℤ := PIPE_MIN_GAP_Y + 20
  let hi : ℤ := 600 - s.currentPipeGap - 40
  let p1 : PipePair :=
    ⟨WINDOW_WIDTH, ((randint lo hi r1 : ℤ) : ℚ), (s.currentPipeGap : ℚ),
      PIPE_WIDTH, false⟩
  let p2 : PipePair :=
    ⟨WINDOW_WIDTH + spacing, ((randint lo hi r2 : ℤ) : ℚ),
      (s.currentPipeGap : ℚ), PIPE_WIDTH, false⟩
  { s with
    pipes := [p1, p2], score := 0, gameOver := false, running := true
    timeSinceLastSpawn := 0, birdY := 268, birdV := 0 }

/-- Single-pipe projection of one tick as experienced by one pipe that
the run reaches: the move of line 535 followed by the scoring step of
lines 563-565; the second component counts the score increments this pipe
signalled. -/
def pipeTickRun : PipePair → List ℚ → PipePair × ℕ
  | p, [] => (p, 0)
  | p, dx :: ds =>
    let p1 := movePipe dx p
    if (!p1.scored) && decide (p1.right < birdX) then
      let r := pipeTickRun { p1 with scored := true } ds
      (r.1, r.2 + 1)
    else
      let r := pipeTickRun p1 ds
      (r.1, r.2)

/-- A mid-run state: score 5 (easy tier), bird at the launch height, one
pipe already behind the bird but unscored (x = 40, right edge 88 < 100)
and one pipe overlapping the bird's box (x = 120, bottom segment up to
y = 300 against the bird box [268, 332]). -/
def exC1 : Game where
  birdY := 268
  birdV := 0
  pipes := [⟨40, 300, 200, 48, false⟩, ⟨120, 300, 200, 48, false⟩]
  score := 5
  gameOver := false
  running := true
  timeSinceLastSpawn := 0
  currentPipeSpeed := 80
  currentPipeGap := 300
  currentSpawnInterval := 4
  initialSpacingMult := 13/10
  autoplay := false
  lastFlapTime := 0

/-- A post-run Ended state whose current_* difficulty fields hold exactly
the values _apply_difficulty installs at score 80 (speed 260, gap 150,
spawn interval 1.2, spacing 1.05), as end_game leaves them. -/
def exC2 : Game where
  birdY := 0
  birdV := -100
  pipes := []
  score := 80
  gameOver := true
  running := false
  timeSinceLastSpawn := 1
  currentPipeSpeed := 260
  currentPipeGap := 150
  currentSpawnInterval := 6/5
  initialSpacingMult := 21/20
  autoplay := false
  lastFlapTime := 0

/-- A running state with a strongly negative bird velocity and the
debounce timestamp at 0, for exercising the flap debounce. -/
def exFlap : Game where
  birdY := 268
  birdV := -500
  pipes := []
  score := 0
  gameOver := false
  running := true
  timeSinceLastSpawn := 0
  currentPipeSpeed := 80
  currentPipeGap := 300
  currentSpawnInterval := 4
  initialSpacingMult := 13/10
  autoplay := false
  lastFlapTime := 0

/-- A running autoplay state whose current pipe speed is 0 (degenerate
time-to-obstacle denominator), with a pipe ahead of the bird. -/
def exSpeed0 : Game where
  birdY := 268
  birdV := 0
  pipes := [⟨300, 200, 200, 48, false⟩]
  score := 0
  gameOver := false
  running := true
  timeSinceLastSpawn := 0
  currentPipeSpeed := 0
  currentPipeGap := 300
  currentSpawnInterval := 4
  initialSpacingMult := 13/10
  autoplay := true
  lastFlapTime := 0

/-- A concrete pipe: x = 100, gap band [200, 400], width 48 (right edge
at 148, both solid segments 200 tall). -/
def exPipe : PipePair := ⟨100, 200, 200, 48, false⟩

/-! ## Theorems -/

/-- The event loop started at a flap event at time 0 forgets the incoming
velocity: the zero-length integration leaves y unchanged and the flap
overwrites v with FLAP_VELOCITY. -/
theorem simFlaps_zero_head (y v : ℚ) (ts : List ℚ) :
    simFlaps y v 0 (0 :: ts) = simFlaps y FLAP_VELOCITY 0 ts := by
  show simFlaps (y + v * (0 - 0) + (1/2) * GRAVITY * (0 - 0) ^ 2)
      FLAP_VELOCITY 0 ts = simFlaps y FLAP_VELOCITY 0 ts
  norm_num

/-- For a positive horizon and at least one flap, the event list starts
with the flap at time 0. -/
theorem flapTimes_succ_pos (m : ℕ) (T : ℚ) (hT : 0 < T) :
    flapTimes (m + 1) T =
      0 :: (((List.range m).map Nat.succ).map
        (fun i => (i : ℚ) * MIN_FLAP_INTERVAL)).filter
          (fun t => decide (t < T)) := by
  unfold flapTimes
  rw [List.range_succ_eq_map]
  simp [hT]

/-- Claim C10 (confirmed): for every flap count k >= 1 and horizon T > 0,
_predict_center_with_flaps is independent of the bird's current velocity,
because the first simulated flap happens at t = 0 and overwrites the
velocity with FLAP_VELOCITY before any integration time elapses. -/
theorem predict_center_velocity_invariant (y v1 v2 T : ℚ) (k : ℕ)
    (hk : 1 ≤ k) (hT : 0 < T) :
    predictCenterWithFlaps y v1 T k = predictCenterWithFlaps y v2 T k := by
  obtain ⟨m, rfl⟩ : ∃ m, k = m + 1 := ⟨k - 1, by omega⟩
  have hft : ∀ v : ℚ, simFlaps y v 0 (flapTimes (m + 1) T) =
      simFlaps y FLAP_VELOCITY 0 ((((List.range m).map Nat.succ).map
        (fun i => (i : ℚ) * MIN_FLAP_INTERVAL)).filter
          (fun t => decide (t < T))) := by
    intro v
    rw [flapTimes_succ_pos m T hT, simFlaps_zero_head]
  unfold predictCenterWithFlaps
  rw [hft v1, hft v2]

/-- Witness for C10: from velocities 0 and -100 the one-flap prediction
over one second coincides (both are 440). -/
theorem predict_center_velocity_invariant_witness :
    predictCenterWithFlaps 268 0 1 1 = predictCenterWithFlaps 268 (-100) 1 1 :=
  predict_center_velocity_invariant 268 0 (-100) 1 1 (by norm_num) (by norm_num)

/-- Concrete value of the predictor in the spec's autopilot scenario:
zero flaps over one second from y = 268, v = 0 give center 60. -/
theorem pcv0 : predictCenterWithFlaps 268 0 1 0 = 60 := by
  norm_num [predictCenterWithFlaps, flapTimes, simFlaps, GRAVITY, birdH]

/-- Scenario value with one flap: center 440. -/
theorem pcv1 : predictCenterWithFlaps 268 0 1 1 = 440 := by
  norm_num [predictCenterWithFlaps, flapTimes, List.range_succ, simFlaps,
    GRAVITY, birdH, FLAP_VELOCITY, MIN_FLAP_INTERVAL]

/-- Scenario value with two flaps: center 510.848. -/
theorem pcv2 : predictCenterWithFlaps 268 0 1 2 = 63856/125 := by
  norm_num [predictCenterWithFlaps, flapTimes, List.range_succ, simFlaps,
    GRAVITY, birdH, FLAP_VELOCITY, MIN_FLAP_INTERVAL]

/-- Scenario value with three flaps: center 566.144. -/
theorem pcv3 : predictCenterWithFlaps 268 0 1 3 = 70768/125 := by
  norm_num [predictCenterWithFlaps, flapTimes, List.range_succ, simFlaps,
    GRAVITY, birdH, FLAP_VELOCITY, MIN_FLAP_INTERVAL]

/-- In the scenario the chosen flap count is 1: no candidate passes the
margin test (60 and 440 and 510.848 and 566.144 all miss [206, 394]) and
the fallback minimizes the distance to the gap center, attained at k = 1. -/
theorem scenario_chosen : chosenFlaps 268 0 300 200 1 = 1 := by
  have hr : List.range 4 = [0, 1, 2, 3] := rfl
  have hd0 : |(60 : ℚ) - 300| = 240 := by
    rw [abs_of_nonpos (by norm_num)]; norm_num
  have hd1 : |(440 : ℚ) - 300| = 140 := by
    rw [abs_of_nonneg (by norm_num)]; norm_num
  have hd2 : |(63856 : ℚ)/125 - 300| = 26356/125 := by
    rw [abs_of_nonneg (by norm_num)]; norm_num
  have hd3 : |(70768 : ℚ)/125 - 300| = 33268/125 := by
    rw [abs_of_nonneg (by norm_num)]; norm_num
  have he2 : |(26356 : ℚ)/125| = 26356/125 := abs_of_nonneg (by norm_num)
  have he3 : |(33268 : ℚ)/125| = 33268/125 := abs_of_nonneg (by norm_num)
  unfold chosenFlaps
  rw [hr]
  norm_num [List.find?, insideGap, pcv0, pcv1, pcv2, pcv3, fallbackBest,
    hd0, hd1, hd2, hd3, he2, he3]

/-- Claim C3 (corrected): with zero flaps the predicted center is the
closed-form free-fall projection plus half the bird height, for every
horizon T; but in the spec's scenario (center 300, velocity 0, gap center
300, gap 200, one second to the obstacle) the free-fall center is 60,
far below the margin-shrunk gap [206, 394], so the bot's chosen flap
count is 1 (by the best-effort fallback), not 0. -/
theorem predict_free_fall_and_scenario_flap :
    (∀ y v T : ℚ, predictCenterWithFlaps y v T 0 =
      y + v * T + (1/2) * GRAVITY * T ^ 2 + birdH / 2)
    ∧ chosenFlaps 268 0 300 200 1 = 1 := by
  refine ⟨?_, scenario_chosen⟩
  intro y v T
  show (y + v * (T - 0) + (1/2) * GRAVITY * (T - 0) ^ 2) + birdH / 2 = _
  ring

/-- Counterexample to C3 as stated: in the scenario the chosen flap count
is 1, not 0 — the zero-flap prediction (center 60) misses the margin test. -/
theorem scenario_chosen_flaps_ne_zero :
    chosenFlaps 268 0 300 200 1 ≠ 0 ∧
    predictCenterWithFlaps 268 0 1 0 = 60 ∧
    insideGap 300 200 6 (predictCenterWithFlaps 268 0 1 0) = false := by
  refine ⟨by rw [scenario_chosen]; norm_num, pcv0, ?_⟩
  rw [pcv0]
  norm_num [insideGap]

/-- Claim C4 (confirmed): a flap request arriving less than
MIN_FLAP_INTERVAL after the last accepted flap leaves the whole state
(velocity included) unchanged; one arriving at or after the interval sets
the velocity to exactly FLAP_VELOCITY, whatever the prior velocity, and
records the new acceptance time. -/
theorem flap_debounce_semantics :
    (∀ (s : Game) (t : ℚ), t - s.lastFlapTime < MIN_FLAP_INTERVAL →
      flapAction s t = s)
    ∧ (∀ (s : Game) (t : ℚ), MIN_FLAP_INTERVAL ≤ t - s.lastFlapTime →
      (flapAction s t).birdV = FLAP_VELOCITY ∧
      (flapAction s t).lastFlapTime = t) := by
  constructor
  · intro s t h
    simp [flapAction, not_le.mpr h]
  · intro s t h
    simp [flapAction, h]

/-- Witness for C4: with the last accepted flap at time 0 and velocity
-500, a request at 0.1 s changes nothing, and one at 0.2 s resets the
velocity to 380. -/
theorem flap_debounce_semantics_witness :
    flapAction exFlap (1/10) = exFlap ∧
    (flapAction exFlap (2/10)).birdV = FLAP_VELOCITY :=
  ⟨flap_debounce_semantics.1 exFlap (1/10) (by norm_num [exFlap, MIN_FLAP_INTERVAL]),
   (flap_debounce_semantics.2 exFlap (2/10)
     (by norm_num [exFlap, MIN_FLAP_INTERVAL])).1⟩

/-- Claim C5 (confirmed): the difficulty parameters are the pure function
of the score described by the spec formula (easy tuple below 30, clamped
ramp above), the int truncation on the gap being the identity there; and
at score 30 the ramp is 0, so the speed is exactly 180, continuous with
the easy-to-hard boundary limit. -/
theorem difficulty_refines_spec_curve :
    (∀ s : ℕ,
        ((applyDifficulty s).speed, ((applyDifficulty s).gap : ℚ),
          (applyDifficulty s).spawnInterval, (applyDifficulty s).spacingMult)
          = difficultySpec s)
    ∧ (applyDifficulty 30).speed = 180 := by
  constructor
  · intro s
    by_cases h : s < 30
    · simp [applyDifficulty, difficultySpec, h]
    · have h30 : (30 : ℚ) ≤ (s : ℚ) := by exact_mod_cast Nat.le_of_not_lt h
      have hextra : max (0:ℚ) ((s : ℚ) - 30) = (s : ℚ) - 30 :=
        max_eq_right (by linarith)
      have hclamp : clamp (((s : ℚ) - 30) / 50) 0 1 =
          min 1 (((s : ℚ) - 30) / 50) := by
        unfold clamp
        exact max_eq_right (le_min (by norm_num)
          (div_nonneg (by linarith) (by norm_num)))
      rcases le_or_lt ((s : ℚ) - 30) 50 with hle | hgt
      · have hmin : min (1:ℚ) (((s : ℚ) - 30) / 50) = ((s : ℚ) - 30) / 50 :=
          min_eq_right ((div_le_one (by norm_num)).mpr hle)
        have hval : (200 : ℚ) - 50 * (((s : ℚ) - 30) / 50) = 230 - (s : ℚ) := by
          field_simp
          ring
        have hmax : max (60:ℚ) (230 - (s:ℚ)) = 230 - (s:ℚ) :=
          max_eq_right (by linarith)
        have hfloor : ((⌊(230 : ℚ) - (s:ℚ)⌋ : ℤ) : ℚ) = 230 - (s:ℚ) := by
          have hcast : (230 : ℚ) - (s : ℚ) = ((230 - (s : ℤ) : ℤ) : ℚ) := by
            push_cast; ring
          rw [hcast, Int.floor_intCast]
        simp only [applyDifficulty, difficultySpec, if_neg h, hextra, hclamp,
          hmin, hval, hmax, hfloor]
      · have hmin : min (1:ℚ) (((s : ℚ) - 30) / 50) = 1 :=
          min_eq_left ((one_le_div (by norm_num)).mpr (by linarith))
        simp only [applyDifficulty, difficultySpec, if_neg h, hextra, hclamp,
          hmin]
        norm_num
  · norm_num [applyDifficulty]

/-- For rectangles with positive extents, the strict-inequality aabb test
of the source holds exactly when the two rectangles overlap with positive
area on both axes. -/
theorem aabb_pos_iff (x1 y1 w1 h1 x2 y2 w2 h2 : ℚ)
    (hw1 : 0 < w1) (hh1 : 0 < h1) (hw2 : 0 < w2) (hh2 : 0 < h2) :
    aabb x1 y1 w1 h1 x2 y2 w2 h2 = true ↔
      rectOverlapPos x1 y1 w1 h1 x2 y2 w2 h2 := by
  unfold aabb rectOverlapPos
  simp only [Bool.and_eq_true, decide_eq_true_eq, max_lt_iff, lt_min_iff,
    gt_iff_lt]
  constructor
  · rintro ⟨⟨⟨h1', h2'⟩, h3'⟩, h4'⟩
    exact ⟨⟨⟨by linarith, h2'⟩, ⟨h1', by linarith⟩⟩,
      ⟨⟨by linarith, h4'⟩, ⟨h3', by linarith⟩⟩⟩
  · rintro ⟨⟨⟨-, hb⟩, ⟨ha, -⟩⟩, ⟨⟨-, hd⟩, ⟨hc, -⟩⟩⟩
    exact ⟨⟨⟨ha, hb⟩, hc⟩, hd⟩

/-- Claim C6 (confirmed): for a bird box and pipe with positive extents,
collides_with is true iff the bird box overlaps the lower or the upper
solid segment with positive area; in particular boundary-tangent contact
(zero overlap extent) never registers, and any positive penetration does. -/
theorem collides_iff_positive_overlap (bx b_y bw bh : ℚ) (p : PipePair)
    (hbw : 0 < bw) (hbh : 0 < bh) (hpw : 0 < p.widthPipe)
    (hbot : 0 < p.bottomHeight) (htop : 0 < p.topHeight) :
    p.collidesWith bx b_y bw bh = true ↔
      (rectOverlapPos bx b_y bw bh p.x 0 p.widthPipe p.bottomHeight ∨
       rectOverlapPos bx b_y bw bh p.x p.topPos p.widthPipe p.topHeight) := by
  unfold PipePair.collidesWith
  rw [Bool.or_eq_true, aabb_pos_iff _ _ _ _ _ _ _ _ hbw hbh hpw hbot,
    aabb_pos_iff _ _ _ _ _ _ _ _ hbw hbh hpw htop]

/-- The fold of the fallback branch returns an index in 0..3 whose
distance value is minimal among all four candidates. -/
theorem fallbackBest_min (f : ℕ → ℚ) :
    fallbackBest f < 4 ∧ ∀ k ∈ List.range 4, f (fallbackBest f) ≤ f k := by
  unfold fallbackBest
  simp only [List.foldl_cons, List.foldl_nil, List.mem_range]
  split_ifs <;>
    refine ⟨by norm_num, ?_⟩ <;>
    intro k hk <;>
    interval_cases k <;>
    linarith

/-- Claim C8 (confirmed): the per-tick autopilot decision is total: with
current speed <= 0 it leaves the state untouched (guarded division, no-op
tick), and when no flap count in 0..3 passes the margin test the chosen
count is the best-effort one — still in 0..3 and minimizing the absolute
distance of the predicted center from the gap center. -/
theorem autopilot_guarded_total_fallback :
    (∀ (s : Game) (now : ℚ), s.currentPipeSpeed ≤ 0 → autoflapLogic s now = s)
    ∧ (∀ y v gc gs T : ℚ,
        (∀ k ∈ List.range 4,
          insideGap gc gs 6 (predictCenterWithFlaps y v T k) = false) →
        chosenFlaps y v gc gs T < 4 ∧
        ∀ k ∈ List.range 4,
          |predictCenterWithFlaps y v T (chosenFlaps y v gc gs T) - gc| ≤
            |predictCenterWithFlaps y v T k - gc|) := by
  constructor
  · intro s now h
    unfold autoflapLogic
    cases hE : (s.pipes.isEmpty || !s.running || s.gameOver)
    · cases hnp : nextPipe s.pipes with
      | none => simp [hnp]
      | some p => simp [hnp, if_pos h]
    · simp
  · intro y v gc gs T h
    have hfind : (List.range 4).find?
        (fun k => insideGap gc gs 6 (predictCenterWithFlaps y v T k)) = none := by
      rw [List.find?_eq_none]
      intro k hk
      simp [h k hk]
    unfold chosenFlaps
    rw [hfind]
    exact fallbackBest_min _

/-- Witness for C6: the concrete pipe and a bird box whose left edge is
exactly tangent to the pipe's right edge (bx = 148): the instantiated
equivalence, with all positivity hypotheses discharged numerically. -/
theorem collides_iff_positive_overlap_witness :
    exPipe.collidesWith 148 268 64 64 = true ↔
      (rectOverlapPos 148 268 64 64 exPipe.x 0 exPipe.widthPipe
        exPipe.bottomHeight ∨
       rectOverlapPos 148 268 64 64 exPipe.x exPipe.topPos exPipe.widthPipe
        exPipe.topHeight) :=
  collides_iff_positive_overlap 148 268 64 64 exPipe (by norm_num)
    (by norm_num) (by norm_num [exPipe])
    (by norm_num [exPipe, PipePair.bottomHeight])
    (by norm_num [exPipe, PipePair.topHeight, PipePair.topPos, WINDOW_HEIGHT])

/-- Witness for C8: a zero-speed autoplay state is left unchanged, and in
the all-candidates-fail scenario the chosen count is within 0..3. -/
theorem autopilot_guarded_total_fallback_witness :
    autoflapLogic exSpeed0 0 = exSpeed0 ∧ chosenFlaps 268 0 300 200 1 < 4 := by
  refine ⟨autopilot_guarded_total_fallback.1 exSpeed0 0 (by norm_num [exSpeed0]), ?_⟩
  refine (autopilot_guarded_total_fallback.2 268 0 300 200 1 ?_).1
  intro k hk
  rw [show List.range 4 = [0, 1, 2, 3] from rfl] at hk
  fin_cases hk <;> norm_num [insideGap, pcv0, pcv1, pcv2, pcv3]

/-- The score returned by the collision-and-scoring loop: the input score
plus the number of newly-passed unscored pipes among those strictly before
the first colliding pipe (all pipes when none collides). -/
theorem csl_score (b_y : ℚ) (pipes : List PipePair) (sc : ℕ) :
    (collideScoreLoop b_y pipes sc).2.1 = sc +
      ((pipes.takeWhile
        (fun p => !(p.collidesWith birdX b_y birdW birdH))).countP
          (fun p => (!p.scored) && decide (p.right < birdX))) := by
  induction pipes generalizing sc with
  | nil => simp [collideScoreLoop]
  | cons p rest ih =>
    by_cases hc : p.collidesWith birdX b_y birdW birdH = true
    · simp [collideScoreLoop, hc, List.takeWhile_cons]
    · have hc' : p.collidesWith birdX b_y birdW birdH = false :=
        Bool.not_eq_true _ ▸ Bool.eq_false_iff.mpr hc
      by_cases hs : ((!p.scored) && decide (p.right < birdX)) = true
      · simp [collideScoreLoop, hc', hs, List.takeWhile_cons, List.countP_cons, ih]
        omega
      · have hs' : ((!p.scored) && decide (p.right < birdX)) = false :=
          Bool.eq_false_iff.mpr hs
        simp [collideScoreLoop, hc', hs', List.takeWhile_cons, List.countP_cons, ih]

/-- The loop reports a terminal collision iff some pipe in the list
collides with the bird box. -/
theorem csl_ended (b_y : ℚ) (pipes : List PipePair) (sc : ℕ) :
    ((collideScoreLoop b_y pipes sc).2.2 = true ↔
      ∃ p ∈ pipes, p.collidesWith birdX b_y birdW birdH = true) := by
  induction pipes generalizing sc with
  | nil => simp [collideScoreLoop]
  | cons p rest ih =>
    by_cases hc : p.collidesWith birdX b_y birdW birdH = true
    · simp [collideScoreLoop, hc]
    · have hc' : p.collidesWith birdX b_y birdW birdH = false :=
        Bool.eq_false_iff.mpr hc
      by_cases hs : ((!p.scored) && decide (p.right < birdX)) = true
      · simp [collideScoreLoop, hc', hs, ih]
      · have hs' : ((!p.scored) && decide (p.right < birdX)) = false :=
          Bool.eq_false_iff.mpr hs
        simp [collideScoreLoop, hc', hs', ih]

/-- The scored flag never reverts inside the loop: pairwise along the
list, a pipe scored on entry is still scored on exit. -/
theorem csl_scored_monotone (b_y : ℚ) (pipes : List PipePair) (sc : ℕ) :
    List.Forall₂ (fun p q => p.scored = true → q.scored = true) pipes
      (collideScoreLoop b_y pipes sc).1 := by
  induction pipes generalizing sc with
  | nil => simp [collideScoreLoop]
  | cons p rest ih =>
    by_cases hc : p.collidesWith birdX b_y birdW birdH = true
    · simp only [collideScoreLoop, hc, if_true]
      exact List.Forall₂.cons (fun h => h)
        (List.forall₂_same.mpr (fun x _ => id))
    · have hc' : p.collidesWith birdX b_y birdW birdH = false :=
        Bool.eq_false_iff.mpr hc
      by_cases hs : ((!p.scored) && decide (p.right < birdX)) = true
      · simp only [collideScoreLoop, hc', Bool.false_eq_true, if_false, hs,
          if_true]
        exact List.Forall₂.cons (fun _ => rfl) (ih _)
      · have hs' : ((!p.scored) && decide (p.right < birdX)) = false :=
          Bool.eq_false_iff.mpr hs
        simp only [collideScoreLoop, hc', Bool.false_eq_true, if_false, hs',
          if_true]
        exact List.Forall₂.cons (fun h => h) (ih _)

/-- An already-scored pipe signals no further increments, over any number
of ticks. -/
theorem ptr_scored_zero (p : PipePair) (ds : List ℚ) (h : p.scored = true) :
    (pipeTickRun p ds).2 = 0 := by
  induction ds generalizing p with
  | nil => simp [pipeTickRun]
  | cons dx ds ih =>
    have hm : (movePipe dx p).scored = true := h
    simp [pipeTickRun, hm]
    exact ih _ hm

/-- A single pipe contributes at most one score increment over any
sequence of ticks. -/
theorem ptr_le_one (p : PipePair) (ds : List ℚ) : (pipeTickRun p ds).2 ≤ 1 := by
  induction ds generalizing p with
  | nil => simp [pipeTickRun]
  | cons dx ds ih =>
    by_cases hcond :
        ((!(movePipe dx p).scored) && decide ((movePipe dx p).right < birdX)) = true
    · simp [pipeTickRun, hcond]
      exact ptr_scored_zero _ ds rfl
    · have hcond' := Bool.eq_false_iff.mpr hcond
      simp [pipeTickRun, hcond']
      exact ih _

/-- An unscored pipe contributes exactly one increment precisely when its
trailing edge passes the bird's leading edge at some tick of the run. -/
theorem ptr_count_iff (p : PipePair) (ds : List ℚ) (h : p.scored = false) :
    ((pipeTickRun p ds).2 = 1 ↔
      ∃ j < ds.length, p.x + ((ds.take (j+1)).sum) + p.widthPipe < birdX) := by
  induction ds generalizing p with
  | nil => simp [pipeTickRun]
  | cons dx ds ih =>
    have hms : (movePipe dx p).scored = false := h
    by_cases hcond : (movePipe dx p).right < birdX
    · have hb : ((!(movePipe dx p).scored) &&
          decide ((movePipe dx p).right < birdX)) = true := by
        simp [hms, hcond]
      constructor
      · intro _
        refine ⟨0, by simp, ?_⟩
        simpa [movePipe, PipePair.right] using hcond
      · intro _
        simp [pipeTickRun, hb]
        exact ptr_scored_zero _ ds rfl
    · have hb : ((!(movePipe dx p).scored) &&
          decide ((movePipe dx p).right < birdX)) = false := by
        simp [hms, hcond]
      have hright : ¬ (p.x + dx + p.widthPipe < birdX) := by
        simpa [movePipe, PipePair.right] using hcond
      rw [show pipeTickRun p (dx :: ds) = pipeTickRun (movePipe dx p) ds by
        simp [pipeTickRun, hb]]
      rw [ih (movePipe dx p) hms]
      constructor
      · rintro ⟨j, hj, hlt⟩
        refine ⟨j + 1, by simpa using Nat.succ_lt_succ hj, ?_⟩
        rw [List.take_succ_cons, List.sum_cons]
        simp only [movePipe] at hlt
        linarith
      · rintro ⟨j, hj, hlt⟩
        match j with
        | 0 =>
          exfalso
          apply hright
          simpa using hlt
        | j' + 1 =>
          refine ⟨j', by simpa using Nat.lt_of_succ_lt_succ hj, ?_⟩
          rw [List.take_succ_cons, List.sum_cons] at hlt
          simp only [movePipe]
          linarith

/-- Claim C7 (confirmed): scoring is exactly-once per obstacle — within a
tick the scored flag is monotone (never reverts) along the loop, and over
any multi-tick run a pipe contributes at most one increment: none if it
is already scored, and exactly one iff its trailing edge ever passes the
bird's leading edge. -/
theorem scoring_exactly_once :
    (∀ (b_y : ℚ) (pipes : List PipePair) (sc : ℕ),
      List.Forall₂ (fun p q => p.scored = true → q.scored = true) pipes
        (collideScoreLoop b_y pipes sc).1)
    ∧ (∀ (p : PipePair) (ds : List ℚ), (pipeTickRun p ds).2 ≤ 1)
    ∧ (∀ (p : PipePair) (ds : List ℚ), p.scored = true →
        (pipeTickRun p ds).2 = 0)
    ∧ (∀ (p : PipePair) (ds : List ℚ), p.scored = false →
        ((pipeTickRun p ds).2 = 1 ↔
          ∃ j < ds.length, p.x + ((ds.take (j+1)).sum) + p.widthPipe < birdX)) :=
  ⟨csl_scored_monotone, ptr_le_one,
    fun p ds h => ptr_scored_zero p ds h, ptr_count_iff⟩

/-- Witness for C7: an unscored pipe at x = 40 (right edge 88, already
past the bird's leading edge 100) contributes exactly one increment in a
one-tick run. -/
theorem scoring_exactly_once_witness :
    (pipeTickRun ⟨40, 300, 200, 48, false⟩ [0]).2 = 1 := by
  refine (scoring_exactly_once.2.2.2 ⟨40, 300, 200, 48, false⟩ [0] rfl).mpr ?_
  refine ⟨0, by norm_num, ?_⟩
  norm_num [birdX]

/-- Claim C9 (confirmed): when the accumulator has reached the spawn
interval, exactly one pipe is appended, at
x = max(playfield_width + 20, rightmost + 0.7*playfield_width), with a
gap bottom in [70, 570 - gap] (so the gap band sits inside the playfield
margins), and the accumulator resets to 0; below the interval nothing
spawns; and every admissible gap position is realized by some seed of the
randint oracle. -/
theorem spawn_phase_characterization :
    (∀ (pipes : List PipePair) (accum interval : ℚ) (gap : ℤ) (rng : ℕ),
      interval ≤ accum → gap ≤ 500 →
      ∃ gy : ℤ,
        spawnPhase pipes accum interval gap rng =
          (pipes ++ [⟨max (WINDOW_WIDTH + 20) (rightmostX pipes + 280),
            (gy : ℚ), (gap : ℚ), PIPE_WIDTH, false⟩], 0) ∧
        70 ≤ gy ∧ gy + gap ≤ 570)
    ∧ (∀ (pipes : List PipePair) (accum interval : ℚ) (gap : ℤ) (rng : ℕ),
        accum < interval →
        spawnPhase pipes accum interval gap rng = (pipes, accum))
    ∧ (∀ (pipes : List PipePair) (accum interval : ℚ) (gap g : ℤ),
        interval ≤ accum → 70 ≤ g → g + gap ≤ 570 →
        ∃ rng : ℕ, spawnPhase pipes accum interval gap rng =
          (pipes ++ [⟨max (WINDOW_WIDTH + 20) (rightmostX pipes + 280),
            (g : ℚ), (gap : ℚ), PIPE_WIDTH, false⟩], 0)) := by
  refine ⟨?_, ?_, ?_⟩
  · intro pipes accum interval gap rng h hg
    refine ⟨randint (PIPE_MIN_GAP_Y + 10) (600 - gap - 30) rng, ?_, ?_, ?_⟩
    · simp [spawnPhase, h]
    · have h1 := Int.emod_nonneg (rng : ℤ)
        (by omega : (600 - gap - 30 - (60 + 10) + 1 : ℤ) ≠ 0)
      simp only [randint, PIPE_MIN_GAP_Y]
      omega
    · have h2 := Int.emod_lt_of_pos (rng : ℤ)
        (by omega : (0 : ℤ) < 600 - gap - 30 - (60 + 10) + 1)
      simp only [randint, PIPE_MIN_GAP_Y]
      omega
  · intro pipes accum interval gap rng h
    simp [spawnPhase, not_le.mpr h]
  · intro pipes accum interval gap g h h1 h2
    refine ⟨(g - 70).toNat, ?_⟩
    have ht : (((g - 70).toNat : ℕ) : ℤ) = g - 70 :=
      Int.toNat_of_nonneg (by omega)
    have hz : randint (PIPE_MIN_GAP_Y + 10) (600 - gap - 30) (g - 70).toNat
        = g := by
      simp only [randint, PIPE_MIN_GAP_Y, ht]
      rw [Int.emod_eq_of_lt (by omega) (by omega)]
      omega
    simp [spawnPhase, h, hz]

/-- Witness for C9: with an empty field, accumulator 4 at interval 4 and
gap 300, the spawn step appends one pipe as characterized. -/
theorem spawn_phase_characterization_witness :
    ∃ gy : ℤ,
      spawnPhase [] 4 4 300 0 =
        ([] ++ [⟨max (WINDOW_WIDTH + 20) (rightmostX [] + 280), (gy : ℚ),
          ((300 : ℤ) : ℚ), PIPE_WIDTH, false⟩], 0) ∧
      70 ≤ gy ∧ gy + 300 ≤ 570 :=
  spawn_phase_characterization.1 [] 4 4 300 0 (by norm_num) (by norm_num)

/-- Claim C1 (corrected): the actual per-tick order is difficulty, bird
physics, floor/ceiling checks, pipe movement/culling, spawning, then —
before any obstacle collision check — the autopilot, and finally one
interleaved collision-and-scoring pass over the pipes.  In a running tick
that breaches neither floor nor ceiling (here with autopilot off), the new
score is the old score plus the number of newly-passed unscored pipes
strictly before the first colliding pipe, and the run ends exactly when
some pipe collides — so a score increment can land in the same tick as a
terminal obstacle overlap. -/
theorem update_score_and_end_characterization :
    ∀ (s : Game) (dt now : ℚ) (rng : ℕ),
      s.running = true → s.gameOver = false → s.autoplay = false →
      0 < (birdStep s.birdY s.birdV dt).1 →
      (birdStep s.birdY s.birdV dt).1 + birdH < WINDOW_HEIGHT →
      ((gameUpdate s dt now rng).score =
        s.score +
          (((spawnPhase (moveAndCull s.pipes
              (-((applyDifficulty s.score).speed * dt)))
              (s.timeSinceLastSpawn + dt)
              (applyDifficulty s.score).spawnInterval
              (applyDifficulty s.score).gap rng).1.takeWhile
            (fun p => !(p.collidesWith birdX (birdStep s.birdY s.birdV dt).1
              birdW birdH))).countP
            (fun p => (!p.scored) && decide (p.right < birdX))))
      ∧ ((gameUpdate s dt now rng).gameOver = true ↔
          ∃ p ∈ (spawnPhase (moveAndCull s.pipes
              (-((applyDifficulty s.score).speed * dt)))
              (s.timeSinceLastSpawn + dt)
              (applyDifficulty s.score).spawnInterval
              (applyDifficulty s.score).gap rng).1,
            p.collidesWith birdX (birdStep s.birdY s.birdV dt).1 birdW birdH
              = true) := by
  intro s dt now rng h1 h2 h3 h4 h5
  have hfloor : ¬ ((birdStep s.birdY s.birdV dt).1 ≤ 0) := not_le.mpr h4
  have hceil : ¬ (WINDOW_HEIGHT ≤ (birdStep s.birdY s.birdV dt).1 + birdH) :=
    not_le.mpr h5
  have hsc := csl_score (birdStep s.birdY s.birdV dt).1
    (spawnPhase (moveAndCull s.pipes (-((applyDifficulty s.score).speed * dt)))
      (s.timeSinceLastSpawn + dt) (applyDifficulty s.score).spawnInterval
      (applyDifficulty s.score).gap rng).1 s.score
  have hend := csl_ended (birdStep s.birdY s.birdV dt).1
    (spawnPhase (moveAndCull s.pipes (-((applyDifficulty s.score).speed * dt)))
      (s.timeSinceLastSpawn + dt) (applyDifficulty s.score).spawnInterval
      (applyDifficulty s.score).gap rng).1 s.score
  simp only [gameUpdate, h1, h2, h3, Bool.not_true, Bool.or_false,
    Bool.false_eq_true, if_false, hfloor, hceil, if_true]
  simp only [neg_mul]
  cases hr : (collideScoreLoop (birdStep s.birdY s.birdV dt).1
      (spawnPhase (moveAndCull s.pipes
        (-((applyDifficulty s.score).speed * dt)))
        (s.timeSinceLastSpawn + dt) (applyDifficulty s.score).spawnInterval
        (applyDifficulty s.score).gap rng).1 s.score).2.2 with
  | false =>
    rw [hr] at hend
    simp only [Bool.false_eq_true, if_false]
    refine ⟨hsc, ?_⟩
    rw [iff_iff_eq] at hend ⊢
    simpa using hend
  | true =>
    rw [hr] at hend
    simp only [if_true, endGame]
    refine ⟨hsc, ?_⟩
    rw [iff_iff_eq] at hend ⊢
    simpa using hend

/-- Counterexample to C1 as stated: a tick in which a terminal obstacle
overlap is detected (pipe at x = 120 hits the bird, bird untouched by the
floor/ceiling clamps) and the score nevertheless increments from 5 to 6
(the pipe at x = 40 is newly passed and is scored before the later pipe's
collision ends the run). -/
theorem update_scores_during_fatal_overlap :
    (gameUpdate exC1 0 0 0).gameOver = true ∧
    (gameUpdate exC1 0 0 0).score = 6 ∧ exC1.score = 5 ∧
    (gameUpdate exC1 0 0 0).birdY = 268 := by
  norm_num [gameUpdate, exC1, applyDifficulty, birdStep, GRAVITY, birdH,
    WINDOW_HEIGHT, moveAndCull, movePipe, PipePair.right, spawnPhase,
    collideScoreLoop, PipePair.collidesWith, aabb, PipePair.bottomHeight,
    PipePair.topPos, PipePair.topHeight, birdX, birdW, endGame]

/-- Witness for C1's amended theorem, applied at the concrete mid-run
state: the tick ends the game through the obstacle-overlap arm of the
characterization. -/
theorem update_score_and_end_characterization_witness :
    (gameUpdate exC1 0 0 0).gameOver = true := by
  have h := update_score_and_end_characterization exC1 0 0 0 rfl rfl rfl
    (by norm_num [exC1, birdStep, GRAVITY])
    (by norm_num [exC1, birdStep, GRAVITY, birdH, WINDOW_HEIGHT])
  refine h.2.mpr ⟨⟨120, 300, 200, 48, false⟩, ?_, ?_⟩
  · norm_num [exC1, applyDifficulty, moveAndCull, movePipe, spawnPhase,
      PipePair.right]
  · norm_num [exC1, birdStep, GRAVITY, PipePair.collidesWith, aabb,
    PipePair.bottomHeight, PipePair.topPos, PipePair.topHeight, birdX,
    birdW, birdH]

/-- Claim C2 (corrected): start_game resets score, bird launch state and
the spawn accumulator and pre-spawns two pipes at x = 400 and
x = 400 + int(400 * spacing_mult) — but it builds them from the
current_* difficulty fields as they are, without recomputing the
score-0 easy parameters, and leaves those fields untouched. -/
theorem startGame_resets_with_current_params :
    ∀ (s : Game) (r1 r2 : ℕ),
      (startGame s r1 r2).score = 0 ∧
      (startGame s r1 r2).birdY = 268 ∧
      (startGame s r1 r2).birdV = 0 ∧
      (startGame s r1 r2).timeSinceLastSpawn = 0 ∧
      (startGame s r1 r2).running = true ∧
      (startGame s r1 r2).gameOver = false ∧
      (startGame s r1 r2).pipes.map (fun p => (p.x, p.gapSize, p.scored)) =
        [(WINDOW_WIDTH, (s.currentPipeGap : ℚ), false),
         (WINDOW_WIDTH + ((⌊WINDOW_WIDTH * s.initialSpacingMult⌋ : ℤ) : ℚ),
           (s.currentPipeGap : ℚ), false)] ∧
      (startGame s r1 r2).currentPipeGap = s.currentPipeGap ∧
      (startGame s r1 r2).initialSpacingMult = s.initialSpacingMult := by
  intro s r1 r2
  simp [startGame]

/-- Counterexample to C2 as stated: restarting from an Ended state whose
current parameters are the score-80 hard tier (gap 150, spacing 1.05 —
exactly what _apply_difficulty installs at score 80) pre-spawns pipes
with gap 150 at x = 400 and 820, not the claimed easy-tier gap 300 and
spacing 1.3 (which would put the second pipe at 920). -/
theorem startGame_stale_difficulty :
    applyDifficulty 80 =
      ⟨260, 150, 6/5, 21/20⟩ ∧
    (startGame exC2 0 0).pipes.map (fun p => (p.x, p.gapSize)) =
      [(400, 150), (820, 150)] ∧
    (startGame exC2 0 0).pipes.map (fun p => p.gapSize) ≠ [300, 300] := by
  refine ⟨?_, ?_, ?_⟩
  · norm_num [applyDifficulty]
  · norm_num [startGame, exC2, WINDOW_WIDTH]
  · norm_num [startGame, exC2, WINDOW_WIDTH]

end TapGame
